import Mathlib

/-!
Shallow embedding of `src/file/object.rs` (PDF primitive object model):
the `Primitive` tagged union, the `Dictionary` and `Stream` containers,
the coercion accessors, and the `Display` text rendering.

Modelling conventions:
- `i32` payloads are `Int`, `u32`/`u16`/`u8` payloads are `Nat` (no claim
  performs arithmetic on them, so wrap-around never arises).
- `f32` payloads are carried as their raw bit pattern (`Nat`); the
  shortest-round-trip decimal rendering of an `f32` is taken as a
  parameter `fmtNumber` of the rendering function, since no claim
  constrains it.
- `Vec<u8>` is `List Nat`, `HashMap<String, Primitive>` is an association
  list with unique keys (`insert` replaces, `get` finds the entry).
- `Result<T>` with the crate's error type is `Except ErrorKind T`.
-/

namespace PdfObject

/-- Embeds `ObjectId { obj_nr: u32, gen_nr: u16 }` from `object.rs`. -/
structure ObjectId where
  obj_nr : Nat
  gen_nr : Nat
deriving DecidableEq, Repr

/-- Modelled from the spec: the error kinds of the crate's `err` module
(not present under `src/`): `NotFound{word}` for a failed dictionary
lookup, `WrongObjectType{expected, found}` for a coercion against the
wrong active variant, and a free-form descriptive message (the target of
`bail!`). -/
inductive ErrorKind where
  | notFound (word : String)
  | wrongObjectType (expected : String) (found : String)
  | message (msg : String)
deriving DecidableEq, Repr

/-- The `Primitive` enum from `object.rs`. The `Dictionary` newtype and
the `Stream` struct are flattened into their constructors (`Dictionary`
wraps the map, `Stream` holds a dictionary and content bytes); the
wrapper structures are reconstructed below. -/
inductive Primitive where
  | null
  | integer (n : Int)
  | number (bits : Nat)
  | boolean (b : Bool)
  | string (s : List Nat)
  | hexString (s : List Nat)
  | stream (dict : List (String × Primitive)) (content : List Nat)
  | dictionary (d : List (String × Primitive))
  | array (a : List Primitive)
  | reference (id : ObjectId)
  | name (n : String)

/-- Embeds `Dictionary(pub HashMap<String, Primitive>)` from `object.rs`,
modelled as an association list with unique keys. -/
structure Dictionary where
  entries : List (String × Primitive)

/-- Embeds `Stream { dictionary, content }` from `object.rs`. -/
structure Stream where
  dictionary : Dictionary
  content : List Nat

/-- Embeds `Dictionary::get`: `self.0.get(&key).ok_or_else(|| NotFound{word: key})`. -/
def Dictionary.get (d : Dictionary) (key : String) : Except ErrorKind Primitive :=
  match d.entries.find? (fun e => e.1 == key) with
  | some e => .ok e.2
  | none => .error (.notFound key)

/-- Embeds `Dictionary::set`: `self.0.insert(key, value)` (replaces any prior
binding for the key). -/
def Dictionary.set (d : Dictionary) (key : String) (value : Primitive) : Dictionary :=
  ⟨(key, value) :: d.entries.filter (fun e => !(e.1 == key))⟩

/-- Embeds `Dictionary::expect_type`: `Err(_) => Ok(())`, a matching `Name`
succeeds, a differing `Name` bails with the formatted message, anything
else bails with `"???"`. -/
def Dictionary.expect_type (d : Dictionary) (type_name : String) : Except ErrorKind Unit :=
  match d.get "Type" with
  | .error _ => .ok ()
  | .ok (.name n) =>
    if n == type_name then .ok ()
    else .error (.message ("Expected type " ++ type_name ++ ", found type " ++ n ++ "."))
  | .ok _ => .error (.message "???")

/-- Embeds `Primitive::type_str`. -/
def Primitive.type_str : Primitive → String
  | .integer _ => "Integer"
  | .number _ => "Number"
  | .boolean _ => "Boolean"
  | .string _ => "String"
  | .hexString _ => "HexString"
  | .stream _ _ => "Stream"
  | .dictionary _ => "Dictionary"
  | .array _ => "Array"
  | .reference _ => "Reference"
  | .name _ => "Name"
  | .null => "Null"

/-- Embeds `Primitive::as_integer`. -/
def Primitive.as_integer (p : Primitive) : Except ErrorKind Int :=
  match p with
  | .integer n => .ok n
  | _ => .error (.wrongObjectType "Integer" p.type_str)

/-- Embeds `Primitive::as_reference`. -/
def Primitive.as_reference (p : Primitive) : Except ErrorKind ObjectId :=
  match p with
  | .reference id => .ok id
  | _ => .error (.wrongObjectType "Reference" p.type_str)

/-- Embeds `Primitive::as_array`. -/
def Primitive.as_array (p : Primitive) : Except ErrorKind (List Primitive) :=
  match p with
  | .array v => .ok v
  | _ => .error (.wrongObjectType "Array" p.type_str)

/-- Embeds `Primitive::as_dictionary`. -/
def Primitive.as_dictionary (p : Primitive) : Except ErrorKind Dictionary :=
  match p with
  | .dictionary d => .ok ⟨d⟩
  | _ => .error (.wrongObjectType "Dictionary" p.type_str)

/-- Embeds `Primitive::as_stream`. -/
def Primitive.as_stream (p : Primitive) : Except ErrorKind Stream :=
  match p with
  | .stream d c => .ok ⟨⟨d⟩, c⟩
  | _ => .error (.wrongObjectType "Stream" p.type_str)

/-- Embeds `Primitive::into_array` (same observable behaviour as `as_array`,
taking the receiver by value in Rust). -/
def Primitive.into_array (p : Primitive) : Except ErrorKind (List Primitive) :=
  match p with
  | .array v => .ok v
  | _ => .error (.wrongObjectType "Array" p.type_str)

/-- Embeds `Primitive::into_dictionary`. -/
def Primitive.into_dictionary (p : Primitive) : Except ErrorKind Dictionary :=
  match p with
  | .dictionary d => .ok ⟨d⟩
  | _ => .error (.wrongObjectType "Dictionary" p.type_str)

/-- Embeds `Primitive::into_stream`. -/
def Primitive.into_stream (p : Primitive) : Except ErrorKind Stream :=
  match p with
  | .stream d c => .ok ⟨⟨d⟩, c⟩
  | _ => .error (.wrongObjectType "Stream" p.type_str)

/-- Embeds `iter().map(|x| Ok(x.as_integer()?)).collect::<Result<Vec<_>>>()`:
left-to-right traversal, stopping at the first failing element. -/
def collectIntegers : List Primitive → Except ErrorKind (List Int)
  | [] => .ok []
  | x :: rest =>
    match x.as_integer with
    | .error e => .error e
    | .ok n =>
      match collectIntegers rest with
      | .error e => .error e
      | .ok ns => .ok (n :: ns)

/-- Embeds `Primitive::as_integer_array`: `self.as_array()?` then collect
`as_integer` over the elements. -/
def Primitive.as_integer_array (p : Primitive) : Except ErrorKind (List Int) :=
  match p.as_array with
  | .error e => .error e
  | .ok a => collectIntegers a

/-- Embeds `Primitive::into_integer_array`: its body is identical to
`as_integer_array` (it also calls `self.as_array()`). -/
def Primitive.into_integer_array (p : Primitive) : Except ErrorKind (List Int) :=
  match p.as_array with
  | .error e => .error e
  | .ok a => collectIntegers a

/-! UTF-8 decoding, modelling `std::str::from_utf8` (the validation rules
of `core::str::run_utf8_validation`): strict RFC 3629 ranges, rejecting
overlong encodings, surrogates and codepoints above U+10FFFF. -/

/-- A UTF-8 continuation byte: `0x80..=0xBF`. -/
def isCont (b : Nat) : Bool := 0x80 ≤ b && b ≤ 0xBF

/-- Allowed second byte of a three-byte sequence, given the lead byte:
`(0xE0, 0xA0..=0xBF)`, `(0xED, 0x80..=0x9F)`, otherwise a plain
continuation byte. -/
def utf8Second3 (b c1 : Nat) : Bool :=
  if b == 0xE0 then 0xA0 ≤ c1 && c1 ≤ 0xBF
  else if b == 0xED then 0x80 ≤ c1 && c1 ≤ 0x9F
  else isCont c1

/-- Allowed second byte of a four-byte sequence, given the lead byte:
`(0xF0, 0x90..=0xBF)`, `(0xF4, 0x80..=0x8F)`, otherwise a plain
continuation byte. -/
def utf8Second4 (b c1 : Nat) : Bool :=
  if b == 0xF0 then 0x90 ≤ c1 && c1 ≤ 0xBF
  else if b == 0xF4 then 0x80 ≤ c1 && c1 ≤ 0x8F
  else isCont c1

/-- Decode a byte sequence as UTF-8, `none` on any invalid sequence. -/
def utf8Decode : List Nat → Option (List Char)
  | [] => some []
  | b :: rest =>
    if b ≤ 0x7F then
      (utf8Decode rest).map (fun cs => Char.ofNat b :: cs)
    else if 0xC2 ≤ b && b ≤ 0xDF then
      match rest with
      | c1 :: rest1 =>
        if isCont c1 then
          (utf8Decode rest1).map (fun cs => Char.ofNat ((b - 0xC0) * 64 + (c1 - 0x80)) :: cs)
        else none
      | [] => none
    else if 0xE0 ≤ b && b ≤ 0xEF then
      match rest with
      | c1 :: c2 :: rest2 =>
        if utf8Second3 b c1 && isCont c2 then
          (utf8Decode rest2).map (fun cs =>
            Char.ofNat ((b - 0xE0) * 4096 + (c1 - 0x80) * 64 + (c2 - 0x80)) :: cs)
        else none
      | _ => none
    else if 0xF0 ≤ b && b ≤ 0xF4 then
      match rest with
      | c1 :: c2 :: c3 :: rest3 =>
        if utf8Second4 b c1 && isCont c2 && isCont c3 then
          (utf8Decode rest3).map (fun cs =>
            Char.ofNat ((b - 0xF0) * 262144 + (c1 - 0x80) * 4096 + (c2 - 0x80) * 64 + (c3 - 0x80)) :: cs)
        else none
      | _ => none
    else none

/-- Embeds `std::str::from_utf8`: the decoded text when the bytes are valid
UTF-8, `none` otherwise. -/
def fromUtf8 (s : List Nat) : Option String :=
  (utf8Decode s).map (fun cs => ⟨cs⟩)

/-! Display rendering (`impl Display for Primitive` / `Stream` /
`ObjectId` in `object.rs`). Each `for` loop over a writer is embedded as
left-to-right string concatenation. -/

/-- The loop `for c in s { write!(f, "{},", c)?; }`: each byte's decimal
form followed by a comma. Used by the `HexString` arm and the invalid
branch of the `String` arm. -/
def writeBytesCommas : List Nat → String
  | [] => ""
  | c :: rest => toString c ++ "," ++ writeBytesCommas rest

/-- The Rust `{:?}` debug form of a `Vec<u8>`: `[b1, b2, ..., bn]` with the
bytes in decimal. -/
def byteDebug (s : List Nat) : String :=
  "[" ++ String.intercalate ", " (s.map toString) ++ "]"

/-- Embeds `impl Display for Stream`: tries UTF-8 decoding of the content; on
success emits the decoded text, on failure the debug form of the raw
bytes, between `stream\n` and `\nendstream\n`. (The stream's dictionary
is not rendered.) -/
def Stream.fmt (s : Stream) : String :=
  match fromUtf8 s.content with
  | some t => "stream\n" ++ t ++ "\nendstream\n"
  | none => "stream\n" ++ byteDebug s.content ++ "\nendstream\n"

/-- Embeds `impl Display for ObjectId`: `obj_id(<obj_nr> <gen_nr>)`. -/
def ObjectId.fmt (id : ObjectId) : String :=
  "obj_id(" ++ toString id.obj_nr ++ " " ++ toString id.gen_nr ++ ")"

mutual

/-- Embeds `impl Display for Primitive`. Here `fmtNumber` stands for the Rust `{}`
rendering of the `f32` payload (applied to its bit pattern), which no
claim constrains. -/
def Primitive.fmt (fmtNumber : Nat → String) : Primitive → String
  | .integer n => toString n
  | .number bits => fmtNumber bits
  | .boolean b => if b then "true" else "false"
  | .string s =>
    match fromUtf8 s with
    | some t => "(" ++ t ++ ")"
    | none => "encoded(" ++ writeBytesCommas s ++ ")"
  | .hexString s => writeBytesCommas s
  | .stream d c => Stream.fmt ⟨⟨d⟩, c⟩
  | .dictionary d => "<< " ++ fmtEntries fmtNumber d ++ ">>\n"
  | .array a => "[" ++ fmtElems fmtNumber a ++ "]"
  | .reference id => toString id.obj_nr ++ " " ++ toString id.gen_nr ++ " R"
  | .name n => "/" ++ n
  | .null => "Null"

/-- The dictionary-arm loop: `for e in d { write!(f, "/{} {}", e.0, e.1)?; }`. -/
def fmtEntries (fmtNumber : Nat → String) : List (String × Primitive) → String
  | [] => ""
  | (k, v) :: rest => "/" ++ k ++ " " ++ Primitive.fmt fmtNumber v ++ fmtEntries fmtNumber rest

/-- The array-arm loop: `for e in a { write!(f, "{} ", e)?; }`. -/
def fmtElems (fmtNumber : Nat → String) : List Primitive → String
  | [] => ""
  | x :: rest => Primitive.fmt fmtNumber x ++ " " ++ fmtElems fmtNumber rest

end

/-! Helper lemmas shared by the claim theorems. -/

/-- Getting a key right after setting it returns the value just written. -/
theorem set_get_self (d : Dictionary) (k : String) (v : Primitive) :
    (d.set k v).get k = Except.ok v := by
  simp [Dictionary.get, Dictionary.set, List.find?]

/-- Getting a key bound in no entry fails with `NotFound` on that key. -/
theorem get_of_absent (d : Dictionary) (k : String)
    (h : ∀ v : Primitive, (k, v) ∉ d.entries) :
    d.get k = Except.error (ErrorKind.notFound k) := by
  have hf : d.entries.find? (fun e => e.1 == k) = none := by
    apply List.find?_eq_none.mpr
    intro e he
    simp only [beq_iff_eq]
    intro hk
    exact h e.2 (by rw [← hk]; exact he)
  simp [Dictionary.get, hf]

/-- On a value that is not an `Integer`, `as_integer` fails with the
`WrongObjectType` error built from `type_str`. -/
theorem as_integer_not_integer (x : Primitive) (h : ∀ n : Int, x ≠ Primitive.integer n) :
    x.as_integer = Except.error (ErrorKind.wrongObjectType "Integer" x.type_str) := by
  cases x <;> first | rfl | exact absurd rfl (h _)

/-- On a value that is not an `Array`, `as_array` fails with the
`WrongObjectType` error built from `type_str`. -/
theorem as_array_not_array (x : Primitive) (h : ∀ l, x ≠ Primitive.array l) :
    x.as_array = Except.error (ErrorKind.wrongObjectType "Array" x.type_str) := by
  cases x <;> first | rfl | exact absurd rfl (h _)

/-- Collecting `as_integer` over a list of `Integer` values yields their
payloads. -/
theorem collectIntegers_map_integer (ns : List Int) :
    collectIntegers (ns.map Primitive.integer) = Except.ok ns := by
  induction ns with
  | nil => rfl
  | cons n rest ih => simp [collectIntegers, Primitive.as_integer, ih]

/-- Collecting `as_integer` over an integer prefix followed by a failing
element propagates exactly that element's error. -/
theorem collectIntegers_append_bad (ns : List Int) (x : Primitive) (l2 : List Primitive)
    (e : ErrorKind) (hx : x.as_integer = Except.error e) :
    collectIntegers (ns.map Primitive.integer ++ x :: l2) = Except.error e := by
  induction ns with
  | nil => simp [collectIntegers, hx]
  | cons n rest ih => simp [collectIntegers, Primitive.as_integer, ih]

/-! The claim theorems. -/

/-- C1: every coercion accessor on a `Primitive` whose active variant
differs from the requested kind fails with `WrongObjectType` carrying the
requested kind name and the value's `type_str`, never coercing between
kinds (in particular `as_integer` on a `Number` fails and `as_reference`
does not dereference); on the matching variant each accessor returns that
variant's payload. -/
theorem c1_coercion_accessors (v : Primitive) :
    (v.type_str ≠ "Integer" →
      v.as_integer = Except.error (ErrorKind.wrongObjectType "Integer" v.type_str))
  ∧ (∀ n, v = Primitive.integer n → v.as_integer = Except.ok n)
  ∧ (v.type_str ≠ "Reference" →
      v.as_reference = Except.error (ErrorKind.wrongObjectType "Reference" v.type_str))
  ∧ (∀ id, v = Primitive.reference id → v.as_reference = Except.ok id)
  ∧ (v.type_str ≠ "Array" →
      v.as_array = Except.error (ErrorKind.wrongObjectType "Array" v.type_str))
  ∧ (∀ a, v = Primitive.array a → v.as_array = Except.ok a)
  ∧ (v.type_str ≠ "Dictionary" →
      v.as_dictionary = Except.error (ErrorKind.wrongObjectType "Dictionary" v.type_str))
  ∧ (∀ d, v = Primitive.dictionary d → v.as_dictionary = Except.ok ⟨d⟩)
  ∧ (v.type_str ≠ "Stream" →
      v.as_stream = Except.error (ErrorKind.wrongObjectType "Stream" v.type_str))
  ∧ (∀ dct c, v = Primitive.stream dct c → v.as_stream = Except.ok ⟨⟨dct⟩, c⟩)
  ∧ (v.type_str ≠ "Array" →
      v.into_array = Except.error (ErrorKind.wrongObjectType "Array" v.type_str))
  ∧ (∀ a, v = Primitive.array a → v.into_array = Except.ok a)
  ∧ (v.type_str ≠ "Dictionary" →
      v.into_dictionary = Except.error (ErrorKind.wrongObjectType "Dictionary" v.type_str))
  ∧ (∀ d, v = Primitive.dictionary d → v.into_dictionary = Except.ok ⟨d⟩)
  ∧ (v.type_str ≠ "Stream" →
      v.into_stream = Except.error (ErrorKind.wrongObjectType "Stream" v.type_str))
  ∧ (∀ dct c, v = Primitive.stream dct c → v.into_stream = Except.ok ⟨⟨dct⟩, c⟩) := by
  cases v <;>
    simp [Primitive.type_str, Primitive.as_integer, Primitive.as_reference,
      Primitive.as_array, Primitive.as_dictionary, Primitive.as_stream,
      Primitive.into_array, Primitive.into_dictionary, Primitive.into_stream]

/-- Witness for C1 at concrete inputs: `as_integer` on a `Number` fails
with the expected error (no numeric widening), and `as_reference` on a
`Reference` returns the identifier unchanged (no dereference). -/
theorem c1_coercion_accessors_witness :
    (Primitive.number 0).as_integer
      = Except.error (ErrorKind.wrongObjectType "Integer" "Number")
  ∧ (Primitive.reference ⟨3, 0⟩).as_reference = Except.ok ⟨3, 0⟩ := by
  have h1 := c1_coercion_accessors (Primitive.number 0)
  have h2 := c1_coercion_accessors (Primitive.reference ⟨3, 0⟩)
  exact ⟨h1.1 (by decide), h2.2.2.2.1 ⟨3, 0⟩ rfl⟩

/-- C2: `expect_type` succeeds when the dictionary has no `"Type"` entry
or when that entry is a `Name` equal to the argument; a differing `Name`
fails with a message carrying both the expected and the found name; a
non-`Name` value fails with the generic message. -/
theorem c2_expect_type_cases (d : Dictionary) (t : String) :
    ((∀ v : Primitive, ("Type", v) ∉ d.entries) → d.expect_type t = Except.ok ())
  ∧ (d.get "Type" = Except.ok (Primitive.name t) → d.expect_type t = Except.ok ())
  ∧ (∀ n, n ≠ t → d.get "Type" = Except.ok (Primitive.name n) →
      d.expect_type t = Except.error
        (ErrorKind.message ("Expected type " ++ t ++ ", found type " ++ n ++ ".")))
  ∧ (∀ v, d.get "Type" = Except.ok v → (∀ n, v ≠ Primitive.name n) →
      d.expect_type t = Except.error (ErrorKind.message "???")) := by
  refine ⟨?_, ?_, ?_, ?_⟩
  · intro h
    unfold Dictionary.expect_type
    rw [get_of_absent d "Type" h]
  · intro h
    unfold Dictionary.expect_type
    rw [h]
    simp
  · intro n hn h
    unfold Dictionary.expect_type
    rw [h]
    simp [hn]
  · intro v h hv
    unfold Dictionary.expect_type
    rw [h]
    cases v <;> first | rfl | exact absurd rfl (hv _)

/-- Witness for C2: concrete dictionaries exercising all four cases of
`expect_type "Page"`. -/
theorem c2_expect_type_cases_witness :
    (Dictionary.mk []).expect_type "Page" = Except.ok ()
  ∧ (Dictionary.mk [("Type", Primitive.name "Page")]).expect_type "Page" = Except.ok ()
  ∧ (Dictionary.mk [("Type", Primitive.name "Catalog")]).expect_type "Page"
      = Except.error (ErrorKind.message "Expected type Page, found type Catalog.")
  ∧ (Dictionary.mk [("Type", Primitive.integer 1)]).expect_type "Page"
      = Except.error (ErrorKind.message "???") := by
  have h0 := c2_expect_type_cases (Dictionary.mk []) "Page"
  have h1 := c2_expect_type_cases (Dictionary.mk [("Type", Primitive.name "Page")]) "Page"
  have h2 := c2_expect_type_cases (Dictionary.mk [("Type", Primitive.name "Catalog")]) "Page"
  have h3 := c2_expect_type_cases (Dictionary.mk [("Type", Primitive.integer 1)]) "Page"
  refine ⟨h0.1 ?_, h1.2.1 rfl, h2.2.2.1 "Catalog" (by decide) rfl,
    h3.2.2.2 (Primitive.integer 1) rfl ?_⟩
  · intro v hv
    simp at hv
  · intro n hn
    exact Primitive.noConfusion hn

/-- C3: `as_integer_array` and `into_integer_array` succeed with the
wrapped integers exactly on an all-`Integer` array; on an array with a
non-`Integer` element they fail with the first such element's own
`as_integer` error; on a non-array they fail with the `as_array` error. -/
theorem c3_integer_array_cases (v : Primitive) :
    ((∀ l, v ≠ Primitive.array l) →
      v.as_integer_array = Except.error (ErrorKind.wrongObjectType "Array" v.type_str)
      ∧ v.into_integer_array = Except.error (ErrorKind.wrongObjectType "Array" v.type_str))
  ∧ (∀ ns : List Int, v = Primitive.array (ns.map Primitive.integer) →
      v.as_integer_array = Except.ok ns ∧ v.into_integer_array = Except.ok ns)
  ∧ (∀ (ns : List Int) (x : Primitive) (l2 : List Primitive),
      v = Primitive.array (ns.map Primitive.integer ++ x :: l2) →
      (∀ n : Int, x ≠ Primitive.integer n) →
      x.as_integer = Except.error (ErrorKind.wrongObjectType "Integer" x.type_str)
      ∧ v.as_integer_array = Except.error (ErrorKind.wrongObjectType "Integer" x.type_str)
      ∧ v.into_integer_array = Except.error (ErrorKind.wrongObjectType "Integer" x.type_str)) := by
  refine ⟨?_, ?_, ?_⟩
  · intro h
    have ha := as_array_not_array v h
    constructor <;> simp [Primitive.as_integer_array, Primitive.into_integer_array, ha]
  · intro ns hv
    subst hv
    have hc := collectIntegers_map_integer ns
    constructor <;>
      simp [Primitive.as_integer_array, Primitive.into_integer_array, Primitive.as_array, hc]
  · intro ns x l2 hv hx
    subst hv
    have hxe := as_integer_not_integer x hx
    have hc := collectIntegers_append_bad ns x l2 _ hxe
    refine ⟨hxe, ?_, ?_⟩ <;>
      simp [Primitive.as_integer_array, Primitive.into_integer_array, Primitive.as_array, hc]

/-- Witness for C3: the array `[Integer 1, Boolean true]` makes both
integer-array accessors fail with the second element's own error. -/
theorem c3_integer_array_cases_witness :
    (Primitive.array [Primitive.integer 1, Primitive.boolean true]).as_integer_array
      = Except.error (ErrorKind.wrongObjectType "Integer" "Boolean") := by
  have h := c3_integer_array_cases (Primitive.array [Primitive.integer 1, Primitive.boolean true])
  exact (h.2.2 [1] (Primitive.boolean true) [] rfl
    (fun n hn => Primitive.noConfusion hn)).2.1

/-- C4: setting a key then getting it returns the written value, and
repeated `set` on the same key is last-write-wins (`set` itself is total:
it always succeeds and returns the updated dictionary). -/
theorem c4_set_get_roundtrip (d : Dictionary) (k : String) (v : Primitive) :
    (d.set k v).get k = Except.ok v
  ∧ (∀ v0 : Primitive, ((d.set k v0).set k v).get k = Except.ok v) :=
  ⟨set_get_self d k v, fun v0 => set_get_self (d.set k v0) k v⟩

/-- C5: `get` on a key absent from the dictionary fails with `NotFound`
carrying exactly the looked-up key. -/
theorem c5_get_not_found (d : Dictionary) (k : String)
    (h : ∀ v : Primitive, (k, v) ∉ d.entries) :
    d.get k = Except.error (ErrorKind.notFound k) :=
  get_of_absent d k h

/-- Witness for C5: looking up `"b"` in a dictionary holding only `"a"`
fails with `NotFound "b"`. -/
theorem c5_get_not_found_witness :
    (Dictionary.mk [("a", Primitive.null)]).get "b"
      = Except.error (ErrorKind.notFound "b") := by
  apply c5_get_not_found
  intro v hv
  simp only [List.mem_singleton, Prod.mk.injEq] at hv
  exact absurd hv.1 (by decide)

/-- C6: exact Display renderings of the representative values, for any
rendering of `Number` payloads (none occurs in them). -/
theorem c6_display_representatives (fmtNumber : Nat → String) :
    Primitive.fmt fmtNumber (Primitive.integer (-7)) = "-7"
  ∧ Primitive.fmt fmtNumber (Primitive.boolean true) = "true"
  ∧ Primitive.fmt fmtNumber (Primitive.name "Foo") = "/Foo"
  ∧ Primitive.fmt fmtNumber (Primitive.reference ⟨3, 0⟩) = "3 0 R"
  ∧ Primitive.fmt fmtNumber (Primitive.array [Primitive.integer 1, Primitive.integer 2])
      = "[1 2 ]"
  ∧ Primitive.fmt fmtNumber (Primitive.dictionary [("Type", Primitive.name "Page")])
      = "<< /Type /Page>>\n"
  ∧ Primitive.fmt fmtNumber (Primitive.string [104, 105]) = "(hi)"
  ∧ Primitive.fmt fmtNumber (Primitive.string [255]) = "encoded(255,)"
  ∧ Primitive.fmt fmtNumber Primitive.null = "Null" :=
  ⟨rfl, rfl, rfl, rfl, rfl, rfl, rfl, rfl, rfl⟩

/-- C7: the HexString rendering is exactly the concatenation, over the
stored bytes in order, of each byte's decimal form followed by a comma,
with no surrounding delimiters; bytes 1, 15 render as `"1,15,"`. -/
theorem c7_hexstring_display (fmtNumber : Nat → String) (s : List Nat) :
    Primitive.fmt fmtNumber (Primitive.hexString s)
      = (s.map (fun b => toString b ++ ",")).foldr (fun a b => a ++ b) ""
  ∧ Primitive.fmt fmtNumber (Primitive.hexString [1, 15]) = "1,15," := by
  constructor
  · show writeBytesCommas s = _
    induction s with
    | nil => rfl
    | cons b rest ih => simp [writeBytesCommas, ih]
  · rfl

/-- C8: a stream whose content decodes as UTF-8 text `t` renders as
`stream\n` ++ t ++ `\nendstream\n`; content that is not valid UTF-8
renders the debug dump of the raw bytes between the same delimiters. -/
theorem c8_stream_display (s : Stream) :
    (∀ t, fromUtf8 s.content = some t →
      s.fmt = "stream\n" ++ t ++ "\nendstream\n")
  ∧ (fromUtf8 s.content = none →
      s.fmt = "stream\n" ++ byteDebug s.content ++ "\nendstream\n") := by
  constructor
  · intro t ht
    unfold Stream.fmt
    rw [ht]
  · intro ht
    unfold Stream.fmt
    rw [ht]

/-- Witness for C8: content `"hi"` (valid UTF-8) and content `0xFF`
(invalid UTF-8). -/
theorem c8_stream_display_witness :
    (Stream.mk ⟨[]⟩ [104, 105]).fmt = "stream\nhi\nendstream\n"
  ∧ (Stream.mk ⟨[]⟩ [255]).fmt = "stream\n[255]\nendstream\n" := by
  have h1 := c8_stream_display (Stream.mk ⟨[]⟩ [104, 105])
  have h2 := c8_stream_display (Stream.mk ⟨[]⟩ [255])
  exact ⟨h1.1 "hi" (by decide), h2.2 (by decide)⟩

/-- C9: `type_str` is total, returns a non-empty label from the fixed
set of eleven kind names, and the label depends only on the active
variant, never on its payload. -/
theorem c9_type_str_total (v : Primitive) :
    (v.type_str ≠ ""
      ∧ v.type_str ∈ ["Integer", "Number", "Boolean", "String", "HexString", "Stream",
          "Dictionary", "Array", "Reference", "Name", "Null"])
  ∧ (∀ n : Int, (Primitive.integer n).type_str = "Integer")
  ∧ (∀ bits : Nat, (Primitive.number bits).type_str = "Number")
  ∧ (∀ b : Bool, (Primitive.boolean b).type_str = "Boolean")
  ∧ (∀ s : List Nat, (Primitive.string s).type_str = "String")
  ∧ (∀ s : List Nat, (Primitive.hexString s).type_str = "HexString")
  ∧ (∀ dct c, (Primitive.stream dct c).type_str = "Stream")
  ∧ (∀ dct, (Primitive.dictionary dct).type_str = "Dictionary")
  ∧ (∀ a, (Primitive.array a).type_str = "Array")
  ∧ (∀ id, (Primitive.reference id).type_str = "Reference")
  ∧ (∀ n : String, (Primitive.name n).type_str = "Name")
  ∧ Primitive.null.type_str = "Null" := by
  refine ⟨?_, fun n => rfl, fun bits => rfl, fun b => rfl, fun s => rfl, fun s => rfl,
    fun dct c => rfl, fun dct => rfl, fun a => rfl, fun id => rfl, fun n => rfl, rfl⟩
  cases v <;> exact ⟨by simp [Primitive.type_str], by simp [Primitive.type_str]⟩

/-- C10: `into_integer_array` computes exactly the same function as
`as_integer_array` on every value: the same `Ok` vector or the same
error. -/
theorem c10_into_as_integer_array (v : Primitive) :
    v.into_integer_array = v.as_integer_array := rfl

end PdfObject
